import Mathlib

/-!
Shallow embedding of `student_report_app` (src/main.rs).

Modelling choices:

* `u32` fields are embedded as `Nat` (values below `2^32`; the program never
  performs `u32` arithmetic that could wrap, it only parses and divides).
* `f64` arithmetic is embedded as exact arithmetic in `ℚ`.  Every `u32` value
  is exactly representable in `f64` (`2^32 - 1 < 2^53`), and the grade
  comparisons of the source (`average >= 90.0` etc.) agree with the exact
  rational comparisons: when `t / s ≠ b` for a boundary `b ∈ {90, 75, 60}`
  the distance `|t/s - b| ≥ 1/s ≥ 2^-32` exceeds the half-ulp of `f64`
  near those boundaries (at most `2^-46`), and rounding to nearest is
  monotone, so the rounded `f64` quotient falls on the same side of each
  (exactly representable) boundary as the exact quotient.
* Console I/O is embedded by passing the stream of input lines explicitly as
  a `List String`; the validation loops become recursion over that list.
-/

/-- The `Grade` enum of src/main.rs. -/
inductive Grade where
  | A
  | B
  | C
  | D
  | Invalid
deriving DecidableEq, Repr

/-- `Grade::as_str` of src/main.rs. -/
def Grade.as_str : Grade → String
  | Grade.A => "A"
  | Grade.B => "B"
  | Grade.C => "C"
  | Grade.D => "D"
  | Grade.Invalid => "N/A"

/-- The `Student` struct of src/main.rs (`u32` fields embedded as `Nat`). -/
structure Student where
  name : String
  total_marks : Nat
  num_subjects : Nat
deriving DecidableEq, Repr

/-- `Student::new` of src/main.rs. -/
def Student.new (name : String) (total_marks num_subjects : Nat) : Student :=
  { name := name, total_marks := total_marks, num_subjects := num_subjects }

/-- `Student::calculate_average` of src/main.rs: `0.0` when `num_subjects == 0`,
otherwise the floating-point quotient `total_marks / num_subjects`
(embedded as the exact rational quotient, see the header comment). -/
def Student.calculate_average (s : Student) : ℚ :=
  if s.num_subjects = 0 then
    0
  else
    (s.total_marks : ℚ) / (s.num_subjects : ℚ)

/-- `Student::assign_grade` of src/main.rs. -/
def Student.assign_grade (s : Student) : Grade :=
  let average := s.calculate_average
  if s.num_subjects = 0 then
    Grade.Invalid
  else if average ≥ 90 then
    Grade.A
  else if average ≥ 75 then
    Grade.B
  else if average ≥ 60 then
    Grade.C
  else
    Grade.D

/-- The `{:.2}` formatting of `Student::print_report_card`: the printed value,
read back as a number, is the average rounded to the nearest hundredth. -/
def formatTwoDecimals (q : ℚ) : ℚ :=
  (round (q * 100) : ℤ) / 100

/-- Rust's `char::is_whitespace` (the Unicode `White_Space` property), used by
`str::trim` inside `read_line` of src/main.rs. -/
def rustIsWhitespace (c : Char) : Bool :=
  c ∈ ['\t', '\n', '\x0b', '\x0c', '\r', ' ', '\u0085',
       '\u00A0', '\u1680', '\u2000', '\u2001', '\u2002', '\u2003', '\u2004',
       '\u2005', '\u2006', '\u2007', '\u2008', '\u2009', '\u200A', '\u2028',
       '\u2029', '\u202F', '\u205F', '\u3000']

/-- Rust's `str::trim`: strip leading and trailing whitespace. -/
def rustTrim (s : String) : String :=
  String.mk (((s.toList.dropWhile rustIsWhitespace).reverse.dropWhile
    rustIsWhitespace).reverse)

/-- `read_line` of src/main.rs, on a successful read of the raw line `raw`:
it returns the trimmed line. -/
def read_line (raw : String) : String :=
  rustTrim raw

/-- `get_string_input` of src/main.rs over an explicit stream of raw input
lines: return the first line whose trimmed form is non-empty, skipping (with a
diagnostic, not modelled) every line that trims to empty; `none` when the
stream runs out (the source loops forever in that case). -/
def get_string_input : List String → Option String
  | [] => none
  | raw :: rest =>
    let input := read_line raw
    if !input.isEmpty then some input else get_string_input rest
/-- `u32::MAX`, the overflow bound of `input.parse::<u32>()` in
`get_u32_input` of src/main.rs. -/
def U32_MAX : Nat := 4294967295

/-- Rust's `char::to_digit(10)`: the value of a base-10 digit character. -/
def to_digit (c : Char) : Option Nat :=
  if '0' ≤ c ∧ c ≤ '9' then some (c.toNat - '0'.toNat) else none

/-- One step of Rust's `from_str_radix` digit loop for `u32`, radix 10:
`result = result.checked_mul(10)?.checked_add(digit)?`, where an
overflow past `u32::MAX` yields an error (modelled as `none`). -/
def parse_u32_step (acc : Option Nat) (c : Char) : Option Nat :=
  match acc with
  | none => none
  | some a =>
    match to_digit c with
    | none => none
    | some d =>
      if a * 10 > U32_MAX then none
      else if a * 10 + d > U32_MAX then none
      else some (a * 10 + d)

/-- The digit loop of Rust's `from_str_radix` for `u32`, radix 10, run on the
characters after the optional sign: an empty digit string is an error. -/
def parse_u32_digits (cs : List Char) : Option Nat :=
  if cs.isEmpty then none else cs.foldl parse_u32_step (some 0)

/-- Rust's `input.parse::<u32>()` (i.e. `u32::from_str`, which is
`from_str_radix(input, 10)`): an optional leading `+` sign followed by a
non-empty run of base-10 digits whose value fits in `u32`; anything else
(empty string, minus sign, decimal point, other characters, overflow) is an
error. -/
def parse_u32 (s : String) : Option Nat :=
  match s.toList with
  | [] => none
  | c :: rest => if c = '+' then parse_u32_digits rest else parse_u32_digits (c :: rest)

/-- `get_u32_input` of src/main.rs over an explicit stream of raw input
lines: return the value of the first line that parses as a `u32` after
trimming, skipping (with a diagnostic, not modelled) every line that fails to
parse; `none` when the stream runs out (the source loops forever then). -/
def get_u32_input : List String → Option Nat
  | [] => none
  | raw :: rest =>
    let input := read_line raw
    match parse_u32 input with
    | some num => some num
    | none => get_u32_input rest

/-- The value (base 10) of a list of digit characters. -/
def digitsVal (cs : List Char) : Nat :=
  cs.foldl (fun a c => a * 10 + (c.toNat - '0'.toNat)) 0

/-! ### Helper lemmas for the `u32` parse characterization -/

/-- The base-10 value accumulated from `a` over the digit characters `cs`. -/
def digitsValFrom (a : Nat) (cs : List Char) : Nat :=
  cs.foldl (fun a c => a * 10 + (c.toNat - '0'.toNat)) a

theorem digitsVal_eq_from (cs : List Char) : digitsVal cs = digitsValFrom 0 cs := rfl

theorem le_digitsValFrom (cs : List Char) : ∀ a : Nat, a ≤ digitsValFrom a cs := by
  induction cs with
  | nil => intro a; exact le_refl a
  | cons c cs ih =>
    intro a
    have h1 : a ≤ a * 10 + (c.toNat - '0'.toNat) :=
      le_trans (Nat.le_mul_of_pos_right a (by norm_num)) (Nat.le_add_right _ _)
    exact le_trans h1 (ih _)

theorem foldl_parse_u32_step_none (cs : List Char) :
    cs.foldl parse_u32_step none = none := by
  induction cs with
  | nil => rfl
  | cons c cs ih => simpa [parse_u32_step] using ih

theorem parse_u32_step_digit (a : Nat) (c : Char) (hc : '0' ≤ c ∧ c ≤ '9') :
    parse_u32_step (some a) c =
      if a * 10 > U32_MAX then none
      else if a * 10 + (c.toNat - '0'.toNat) > U32_MAX then none
      else some (a * 10 + (c.toNat - '0'.toNat)) := by
  simp [parse_u32_step, to_digit, hc]

theorem parse_u32_step_nondigit (a : Nat) (c : Char) (hc : ¬ ('0' ≤ c ∧ c ≤ '9')) :
    parse_u32_step (some a) c = none := by
  simp [parse_u32_step, to_digit, hc]

theorem foldl_parse_u32_step_eq (cs : List Char) :
    ∀ a : Nat, a ≤ U32_MAX → ∀ n : Nat,
      (cs.foldl parse_u32_step (some a) = some n ↔
        (∀ c ∈ cs, '0' ≤ c ∧ c ≤ '9') ∧ digitsValFrom a cs = n ∧
          digitsValFrom a cs ≤ U32_MAX) := by
  induction cs with
  | nil =>
    intro a ha n
    simp [digitsValFrom, ha, eq_comm]
  | cons c cs ih =>
    intro a ha n
    by_cases hc : '0' ≤ c ∧ c ≤ '9'
    · by_cases hov : a * 10 + (c.toNat - '0'.toNat) ≤ U32_MAX
      · have h10 : ¬ a * 10 > U32_MAX :=
          not_lt.mpr (le_trans (Nat.le_add_right _ _) hov)
        have hs : parse_u32_step (some a) c =
            some (a * 10 + (c.toNat - '0'.toNat)) := by
          rw [parse_u32_step_digit a c hc, if_neg h10, if_neg (not_lt.mpr hov)]
        rw [List.foldl_cons, hs, ih _ hov n]
        simp [digitsValFrom, hc]
      · have hs : parse_u32_step (some a) c = none := by
          rw [parse_u32_step_digit a c hc]
          by_cases h10 : a * 10 > U32_MAX
          · rw [if_pos h10]
          · rw [if_neg h10, if_pos (not_le.mp hov)]
        rw [List.foldl_cons, hs, foldl_parse_u32_step_none]
        have hge : ¬ digitsValFrom a (c :: cs) ≤ U32_MAX := by
          have hmono : a * 10 + (c.toNat - '0'.toNat) ≤ digitsValFrom a (c :: cs) :=
            le_digitsValFrom cs _
          omega
        constructor
        · intro h; simp at h
        · rintro ⟨-, -, hle⟩; exact absurd hle hge
    · have hs : parse_u32_step (some a) c = none := parse_u32_step_nondigit a c hc
      rw [List.foldl_cons, hs, foldl_parse_u32_step_none]
      constructor
      · intro h; simp at h
      · rintro ⟨hall, -, -⟩
        exact absurd (hall c (List.mem_cons_self c cs)) hc

theorem parse_u32_digits_eq_some (cs : List Char) (n : Nat) :
    parse_u32_digits cs = some n ↔
      cs ≠ [] ∧ (∀ c ∈ cs, '0' ≤ c ∧ c ≤ '9') ∧ digitsVal cs = n ∧ n ≤ U32_MAX := by
  unfold parse_u32_digits
  by_cases h : cs = []
  · simp [h]
  · rw [if_neg (by simpa using h), foldl_parse_u32_step_eq cs 0 (by norm_num) n,
      digitsVal_eq_from]
    constructor
    · rintro ⟨hd, hv, hle⟩; exact ⟨h, hd, hv, hv ▸ hle⟩
    · rintro ⟨-, hd, hv, hle⟩; exact ⟨hd, hv, hv.symm ▸ hle⟩

/-! ### Claim theorems -/

/-- C1: `assign_grade` returns `Invalid` when `num_subjects = 0`; otherwise it
returns `A` when the average is at least 90, `B` when it is in `[75, 90)`,
`C` when it is in `[60, 75)`, and `D` when it is below 60, the boundary
values 90, 75 and 60 belonging to the higher band. -/
theorem assign_grade_bands (st : Student) :
    (st.num_subjects = 0 → st.assign_grade = Grade.Invalid) ∧
    (st.num_subjects ≠ 0 →
      ((90 ≤ st.calculate_average → st.assign_grade = Grade.A) ∧
       (75 ≤ st.calculate_average → st.calculate_average < 90 →
         st.assign_grade = Grade.B) ∧
       (60 ≤ st.calculate_average → st.calculate_average < 75 →
         st.assign_grade = Grade.C) ∧
       (st.calculate_average < 60 → st.assign_grade = Grade.D))) := by
  constructor
  · intro h
    simp [Student.assign_grade, h]
  · intro h
    refine ⟨fun h90 => ?_, fun h75 h90 => ?_, fun h60 h75 => ?_, fun h60 => ?_⟩
    · simp [Student.assign_grade, h, ge_iff_le, h90]
    · have h90' : ¬ 90 ≤ st.calculate_average := not_le.mpr h90
      simp [Student.assign_grade, h, ge_iff_le, h90', h75]
    · have h90' : ¬ 90 ≤ st.calculate_average :=
        not_le.mpr (h75.trans_le (by norm_num))
      have h75' : ¬ 75 ≤ st.calculate_average := not_le.mpr h75
      simp [Student.assign_grade, h, ge_iff_le, h90', h75', h60]
    · have h90' : ¬ 90 ≤ st.calculate_average :=
        not_le.mpr (h60.trans_le (by norm_num))
      have h75' : ¬ 75 ≤ st.calculate_average :=
        not_le.mpr (h60.trans_le (by norm_num))
      have h60' : ¬ 60 ≤ st.calculate_average := not_le.mpr h60
      simp [Student.assign_grade, h, ge_iff_le, h90', h75', h60']

/-- Witness for C1: the student with total marks 270 over 3 subjects has
average 90 and grade `A`. -/
theorem assign_grade_bands_witness :
    (Student.new "Ada" 270 3).assign_grade = Grade.A :=
  ((assign_grade_bands (Student.new "Ada" 270 3)).2 (by decide)).1
    (by norm_num [Student.calculate_average, Student.new])

/-- C2: `calculate_average` is the quotient `total_marks / num_subjects` when
`num_subjects > 0` and exactly `0` when `num_subjects = 0`. -/
theorem calculate_average_quotient (st : Student) :
    (st.num_subjects = 0 → st.calculate_average = 0) ∧
    (st.num_subjects ≠ 0 →
      st.calculate_average = (st.total_marks : ℚ) / (st.num_subjects : ℚ)) := by
  constructor
  · intro h; simp [Student.calculate_average, h]
  · intro h; simp [Student.calculate_average, h]

/-- Witness for C2: at 270 marks over 3 subjects the average is 270 / 3, and
at 7 marks over 0 subjects it is 0. -/
theorem calculate_average_quotient_witness :
    (Student.new "Ada" 270 3).calculate_average = (270 : ℚ) / 3 ∧
    (Student.new "Bo" 7 0).calculate_average = 0 :=
  ⟨(calculate_average_quotient (Student.new "Ada" 270 3)).2 (by decide),
   (calculate_average_quotient (Student.new "Bo" 7 0)).1 (by decide)⟩

theorem parse_u32_toList_nil (s : String) (h : s.toList = []) :
    parse_u32 s = none := by
  unfold parse_u32; rw [h]

theorem parse_u32_toList_cons (s : String) (c : Char) (rest : List Char)
    (h : s.toList = c :: rest) :
    parse_u32 s =
      if c = '+' then parse_u32_digits rest else parse_u32_digits (c :: rest) := by
  unfold parse_u32; rw [h]

/-- C3 (amended): `parse_u32` accepts exactly the strings consisting of an
optional leading `+` sign followed by a non-empty run of base-10 digits whose
value is at most 4294967295; in particular it rejects `""`, `"-5"`, `"3.14"`,
`"12a"` and `"4294967296"`, and accepts `"0"` and `"4294967295"`. -/
theorem parse_u32_characterization :
    (∀ (s : String) (n : Nat),
      parse_u32 s = some n ↔
        ∃ ds : List Char, (s.toList = ds ∨ s.toList = '+' :: ds) ∧ ds ≠ [] ∧
          (∀ c ∈ ds, '0' ≤ c ∧ c ≤ '9') ∧ digitsVal ds = n ∧ n ≤ U32_MAX) ∧
    parse_u32 "" = none ∧ parse_u32 "-5" = none ∧ parse_u32 "3.14" = none ∧
    parse_u32 "12a" = none ∧ parse_u32 "4294967296" = none ∧
    parse_u32 "0" = some 0 ∧ parse_u32 "4294967295" = some 4294967295 := by
  refine ⟨fun s n => ?_, by decide, by decide, by decide, by decide, by decide,
    by decide, by decide⟩
  rcases hl : s.toList with - | ⟨c, rest⟩
  · rw [parse_u32_toList_nil s hl]
    simp
  · rw [parse_u32_toList_cons s c rest hl]
    by_cases hplus : c = '+'
    · subst hplus
      rw [if_pos rfl, parse_u32_digits_eq_some]
      constructor
      · rintro ⟨hne, hd, hv, hle⟩
        exact ⟨rest, Or.inr rfl, hne, hd, hv, hle⟩
      · rintro ⟨ds, hds | hds, hne, hd, hv, hle⟩
        · cases hds
          have := hd '+' (List.mem_cons_self _ _)
          simp [Char.le_def] at this
        · cases hds
          exact ⟨hne, hd, hv, hle⟩
    · rw [if_neg hplus, parse_u32_digits_eq_some]
      constructor
      · rintro ⟨hne, hd, hv, hle⟩
        exact ⟨c :: rest, Or.inl rfl, hne, hd, hv, hle⟩
      · rintro ⟨ds, hds | hds, hne, hd, hv, hle⟩
        · cases hds
          exact ⟨hne, hd, hv, hle⟩
        · cases hds
          exact absurd rfl hplus

/-- Counterexample to C3 as stated: the code accepts `"+5"`, a string that
contains a sign and is not made of digits only. -/
theorem parse_u32_counterexample :
    parse_u32 "+5" = some 5 ∧ ¬ (∀ c ∈ "+5".toList, '0' ≤ c ∧ c ≤ '9') := by
  constructor
  · decide
  · decide

/-- C4: `get_string_input` skips exactly the lines that trim to empty
(the empty string and whitespace-only lines) and returns the first non-empty
trimmed line of the input stream. -/
theorem get_string_input_first_nonempty (ls : List String) :
    get_string_input ls = (ls.map rustTrim).find? (fun t => !t.isEmpty) := by
  induction ls with
  | nil => rfl
  | cons raw rest ih =>
    by_cases h : (rustTrim raw).isEmpty
    · simp [get_string_input, read_line, List.find?, h, ih]
    · simp [get_string_input, read_line, List.find?, h]

theorem calculate_average_of_ne (st : Student) (h : st.num_subjects ≠ 0) :
    st.calculate_average = (st.total_marks : ℚ) / (st.num_subjects : ℚ) := by
  simp [Student.calculate_average, h]

/-- C5: grade assignment is total — `assign_grade` always yields one of the
five variants, and `calculate_average` always yields a well-defined finite
value, between 0 and `total_marks`. -/
theorem assign_grade_total (st : Student) :
    (st.assign_grade = Grade.A ∨ st.assign_grade = Grade.B ∨
     st.assign_grade = Grade.C ∨ st.assign_grade = Grade.D ∨
     st.assign_grade = Grade.Invalid) ∧
    0 ≤ st.calculate_average ∧ st.calculate_average ≤ (st.total_marks : ℚ) := by
  refine ⟨?_, ?_, ?_⟩
  · cases hg : st.assign_grade <;> simp
  · unfold Student.calculate_average
    split_ifs
    · exact le_refl 0
    · positivity
  · by_cases h : st.num_subjects = 0
    · unfold Student.calculate_average
      rw [if_pos h]
      exact Nat.cast_nonneg _
    · rw [calculate_average_of_ne st h]
      exact div_le_self (Nat.cast_nonneg _)
        (by exact_mod_cast Nat.one_le_iff_ne_zero.mpr h)

/-- C6: for fixed `num_subjects > 0` the average is monotone non-decreasing in
`total_marks`. -/
theorem calculate_average_mono (nm₁ nm₂ : String) (t₁ t₂ s : Nat)
    (hs : 0 < s) (ht : t₁ ≤ t₂) :
    (Student.new nm₁ t₁ s).calculate_average ≤
      (Student.new nm₂ t₂ s).calculate_average := by
  rw [calculate_average_of_ne (Student.new nm₁ t₁ s) hs.ne',
    calculate_average_of_ne (Student.new nm₂ t₂ s) hs.ne']
  show (t₁ : ℚ) / (s : ℚ) ≤ (t₂ : ℚ) / (s : ℚ)
  exact (div_le_div_iff_of_pos_right (by exact_mod_cast hs)).mpr (by exact_mod_cast ht)

/-- Witness for C6: with 2 subjects, 10 total marks give an average at most
that of 20 total marks. -/
theorem calculate_average_mono_witness :
    (Student.new "Ada" 10 2).calculate_average ≤
      (Student.new "Bo" 20 2).calculate_average :=
  calculate_average_mono "Ada" "Bo" 10 20 2 (by decide) (by decide)

/-- C7: rounding the average to two decimal places (the report's `{:.2}`
format) changes it by at most 0.005 = 1/200. -/
theorem format_roundtrip (st : Student) :
    |formatTwoDecimals st.calculate_average - st.calculate_average| ≤ 1 / 200 := by
  have h := abs_sub_round (st.calculate_average * 100)
  rw [abs_sub_comm] at h
  have heq : formatTwoDecimals st.calculate_average - st.calculate_average =
      ((round (st.calculate_average * 100) : ℚ) -
        st.calculate_average * 100) / 100 := by
    unfold formatTwoDecimals
    ring
  rw [heq, abs_div]
  rw [show |(100 : ℚ)| = 100 from by norm_num]
  rw [div_le_div_iff₀ (by norm_num) (by norm_num)]
  nlinarith [h]

/-- C8: a student with 179 total marks over 3 subjects has an average that
formats to two decimal places as 59.67, and grade `D`. -/
theorem report_card_179_3 (nm : String) :
    formatTwoDecimals (Student.new nm 179 3).calculate_average = 5967 / 100 ∧
    (Student.new nm 179 3).assign_grade = Grade.D := by
  constructor
  · simp [formatTwoDecimals, Student.calculate_average, Student.new, round_eq]
    norm_num [Int.floor_eq_iff]
  · simp [Student.assign_grade, Student.calculate_average, Student.new]
    norm_num

/-- C9: the `name` field has no influence on the computed average or grade. -/
theorem name_noninterference (nm₁ nm₂ : String) (t s : Nat) :
    (Student.new nm₁ t s).calculate_average =
      (Student.new nm₂ t s).calculate_average ∧
    (Student.new nm₁ t s).assign_grade = (Student.new nm₂ t s).assign_grade :=
  ⟨rfl, rfl⟩

/-- C10: `assign_grade` returns `Invalid` exactly when `num_subjects = 0`;
with at least one subject the grade is always one of `A`, `B`, `C`, `D`. -/
theorem assign_grade_invalid_iff (st : Student) :
    (st.assign_grade = Grade.Invalid ↔ st.num_subjects = 0) ∧
    (st.num_subjects ≠ 0 →
      st.assign_grade = Grade.A ∨ st.assign_grade = Grade.B ∨
      st.assign_grade = Grade.C ∨ st.assign_grade = Grade.D) := by
  constructor
  · by_cases h : st.num_subjects = 0
    · simp [Student.assign_grade, h]
    · simp only [Student.assign_grade, if_neg h]
      simp [h]
      split_ifs <;> simp
  · intro h
    simp only [Student.assign_grade, if_neg h]
    split_ifs <;> simp

/-- Witness for C10: a student with 3 subjects gets one of the four letter
grades. -/
theorem assign_grade_invalid_iff_witness :
    (Student.new "Ada" 500 3).assign_grade = Grade.A ∨
    (Student.new "Ada" 500 3).assign_grade = Grade.B ∨
    (Student.new "Ada" 500 3).assign_grade = Grade.C ∨
    (Student.new "Ada" 500 3).assign_grade = Grade.D :=
  (assign_grade_invalid_iff (Student.new "Ada" 500 3)).2 (by decide)
